import Mathlib

/-!
Shallow embedding of the Polymarket trading bot (`src/bot.py`) for
verification of its specification.  Prices and timestamps are modelled
as rationals, outcome tokens as strings, and the two external effects
(the quote service and the order-execution service) as explicit inputs
to each evaluation: the mid prices appear as fields of the per-tick
input record and the accept/reject outcome of each sequentially placed
order appears as a boolean field.  The relative-value (RV) block of
`main` (lines 258-327) becomes the pure function `rvStep`, the momentum
block (lines 229-251) becomes `momentumStep`, and the leaf helpers
`get_mid_price`, `place_limit_buy_order` and the 1-hour slug builder
are embedded directly.
-/

namespace Bot

/-- Configuration constants from `src/bot.py` lines 16-24. -/
def BUY_IN_LAST_X_MINUTES : Nat := 5

def SHARES_TO_BUY : ℚ := 6

def BUY_PRICE : ℚ := 99 / 100

def RV_OPEN_THR : ℚ := 8 / 100

def RV_CLOSE_THR : ℚ := 3 / 100

def RV_COOLDOWN_SECONDS : ℚ := 120

def RV_SHARES : ℚ := 2

/-- A recorded position leg: the Python pair `("YES"|"NO", token_id)`. -/
structure Leg where
  side : String
  token : String
  deriving DecidableEq, Repr

/-- One limit-buy order submitted to the gateway, i.e. the arguments of a
`place_limit_buy_order` call (token id, size, price, direction label). -/
structure Order where
  token : String
  size : ℚ
  price : ℚ
  label : String
  deriving DecidableEq, Repr

/-- The mutable RV-engine state of `main`: `rv_open`, `rv_last_action_ts`,
`rv_15m_leg`, `rv_1h_leg` (lines 212-215). -/
structure RVState where
  rv_open : Bool
  rv_last_action_ts : ℚ
  rv_15m_leg : Option Leg
  rv_1h_leg : Option Leg
  deriving DecidableEq, Repr

/-- The initial RV state set up before the loop (lines 212-215). -/
def rvInit : RVState := ⟨false, 0, none, none⟩

/-- Per-tick inputs to the RV block: the resolved 1-hour market tokens
(`none` when `get_polymarket_tokens_for_slug` failed or returned falsy
tokens), the current 15-minute tokens (`none` when falsy), the two mid
prices returned by `get_mid_price`, the current timestamp, and the
accept outcomes of the first and second order placed this evaluation. -/
structure RVInputs where
  resolved1h : Option (String × String)
  tokens15m : Option (String × String)
  up_mid_15m : ℚ
  up_mid_1h : ℚ
  now_ts : ℚ
  leg1_accept : Bool
  leg2_accept : Bool
  deriving DecidableEq, Repr

/-- `signal = up_mid_15m - up_mid_1h` (line 263). -/
def rvSignal (inp : RVInputs) : ℚ := inp.up_mid_15m - inp.up_mid_1h

/-- One evaluation of the RV block (`src/bot.py` lines 258-327), returning
the updated state and the list of orders placed, in placement order.
The guard on line 260 requires the 1-hour market to have resolved and all
four token ids to be truthy; the open branch (270-298) assigns the leg
fields before placing either order and flips `rv_open` only when both
legs are accepted; the close branch (300-327) rebuilds the closing tokens
from the recorded sides and the tokens resolved on the current tick. -/
def rvStep (st : RVState) (inp : RVInputs) : RVState × List Order :=
  match inp.resolved1h, inp.tokens15m with
  | some (rvYesToken, rvNoToken), some (yesToken, noToken) =>
    if st.rv_open = false ∧ ¬ (inp.now_ts - st.rv_last_action_ts < RV_COOLDOWN_SECONDS)
        ∧ RV_OPEN_THR ≤ |rvSignal inp| then
      let leg15 : Leg := if 0 < rvSignal inp then ⟨"NO", noToken⟩ else ⟨"YES", yesToken⟩
      let leg1h : Leg := if 0 < rvSignal inp then ⟨"YES", rvYesToken⟩ else ⟨"NO", rvNoToken⟩
      let orders : List Order :=
        [⟨leg15.token, RV_SHARES, BUY_PRICE, "RV 15m " ++ leg15.side⟩,
         ⟨leg1h.token, RV_SHARES, BUY_PRICE, "RV 1h " ++ leg1h.side⟩]
      if inp.leg1_accept && inp.leg2_accept then
        (⟨true, inp.now_ts, some leg15, some leg1h⟩, orders)
      else
        ({ st with rv_15m_leg := some leg15, rv_1h_leg := some leg1h }, orders)
    else if st.rv_open = true ∧ ¬ (inp.now_ts - st.rv_last_action_ts < RV_COOLDOWN_SECONDS)
        ∧ |rvSignal inp| ≤ RV_CLOSE_THR then
      match st.rv_15m_leg, st.rv_1h_leg with
      | some l15, some l1h =>
        let close15mToken : String := if l15.side = "NO" then yesToken else noToken
        let close1hToken : String := if l1h.side = "NO" then rvYesToken else rvNoToken
        let orders : List Order :=
          [⟨close15mToken, RV_SHARES, BUY_PRICE, "RV 15m CLOSE"⟩,
           ⟨close1hToken, RV_SHARES, BUY_PRICE, "RV 1h CLOSE"⟩]
        if inp.leg1_accept && inp.leg2_accept then
          (⟨false, inp.now_ts, none, none⟩, orders)
        else (st, orders)
      | _, _ => (st, [])
    else (st, [])
  | _, _ => (st, [])

/-- States of the RV engine reachable from the initial state by any
sequence of tick evaluations with arbitrary inputs. -/
inductive RVReachable : RVState → Prop
  | init : RVReachable rvInit
  | step : ∀ {s : RVState}, RVReachable s → ∀ inp : RVInputs, RVReachable (rvStep s inp).1

/-- `get_mid_price` (lines 193-198) as a function of the fetched best bid
and best ask: the average when both are positive, otherwise
`max(bid, ask, 0.0)`. -/
def get_mid_price (bid ask : ℚ) : ℚ :=
  if 0 < bid ∧ 0 < ask then (bid + ask) / 2
  else max (max bid ask) 0

/-- Model of the dictionary returned by `client.post_order`: the value of
the `success` key when present and a boolean, whether an `orderID` key is
present, and the optional error fields read on rejection. -/
structure OrderResp where
  success : Option Bool
  hasOrderID : Bool
  errorMsg : Option String
  message : Option String
  deriving DecidableEq, Repr

/-- Behaviour of the order-execution service on one call: either the
sign/post pipeline raised an exception with some message, or it returned
a response dictionary. -/
inductive ServiceOutcome where
  | exn : String → ServiceOutcome
  | resp : OrderResp → ServiceOutcome
  deriving DecidableEq, Repr

/-- `place_limit_buy_order` (lines 99-122) as a function of the service
behaviour: an exception is caught and classified as rejected (`false`);
a response is accepted (`true`) exactly when `resp.get("success") is True`
or `"orderID" in resp`. -/
def place_limit_buy_order (outcome : ServiceOutcome) : Bool :=
  match outcome with
  | .exn _ => false
  | .resp r => decide (r.success = some true) || r.hasOrderID

/-- Lower-cased full month name, i.e. `d.strftime("%B").lower()` for a
date whose month number is the argument (line 91). -/
def monthNameLower : Nat → String
  | 1 => "january"
  | 2 => "february"
  | 3 => "march"
  | 4 => "april"
  | 5 => "may"
  | 6 => "june"
  | 7 => "july"
  | 8 => "august"
  | 9 => "september"
  | 10 => "october"
  | 11 => "november"
  | 12 => "december"
  | _ => ""

/-- The 12-hour clock value computed on lines 95-96:
`hour12 = hour24 % 12; hour12 = 12 if hour12 == 0 else hour12`. -/
def hour12_of (hour24 : Nat) : Nat :=
  if hour24 % 12 = 0 then 12 else hour24 % 12

/-- The am/pm indicator computed on line 94:
`"am" if hour24 < 12 else "pm"`. -/
def ampm_of (hour24 : Nat) : String :=
  if hour24 < 12 then "am" else "pm"

/-- `btc_1h_slug_for_now` (lines 89-97) as a function of the broken-down
Eastern-time components of the truncated reference time: month number,
day of month (printed unpadded, since the source does `str(int(...))`),
and 24-hour clock hour. -/
def btc_1h_slug (month day hour24 : Nat) : String :=
  "bitcoin-up-or-down-" ++ monthNameLower month ++ "-" ++ toString day ++ "-"
    ++ toString (hour12_of hour24) ++ ampm_of hour24 ++ "-et"

/-- `trigger_minute = 15 - BUY_IN_LAST_X_MINUTES` (line 235). -/
def trigger_minute : Nat := 15 - BUY_IN_LAST_X_MINUTES

/-- The momentum block of `main` (lines 229-251) as a function of the
tracking state `last_trade_interval`, the tick's interval index and
minute-in-interval, the resolved 15-minute tokens, the two fetched best
bids, and the accept outcome of the single order when one is placed.
Returns the updated `last_trade_interval` and the orders placed. -/
def momentumStep (last_trade_interval current_interval : Int)
    (minute_in_interval : Nat) (yes_token no_token : String)
    (yes_bid no_bid : ℚ) (order_success : Bool) : Int × List Order :=
  if trigger_minute ≤ minute_in_interval ∧ last_trade_interval ≠ current_interval then
    if no_bid < yes_bid then
      ((if order_success then current_interval else last_trade_interval),
       [⟨yes_token, SHARES_TO_BUY, BUY_PRICE, "YES"⟩])
    else if yes_bid < no_bid then
      ((if order_success then current_interval else last_trade_interval),
       [⟨no_token, SHARES_TO_BUY, BUY_PRICE, "NO"⟩])
    else
      (last_trade_interval, [])
  else
    (last_trade_interval, [])

end Bot

namespace Bot

/-- C5: for every tick and every prior state, if `now - lastActionTimestamp`
is below the cooldown window then no Closed-to-Open and no Open-to-Closed
transition fires and the RV engine places no orders: the evaluation returns
the state unchanged with an empty order list. -/
theorem rv_cooldown_no_transition (st : RVState) (inp : RVInputs)
    (h : inp.now_ts - st.rv_last_action_ts < RV_COOLDOWN_SECONDS) :
    rvStep st inp = (st, []) := by
  unfold rvStep
  rcases hres : inp.resolved1h with _ | ⟨rvY, rvN⟩ <;>
    rcases htok : inp.tokens15m with _ | ⟨yT, nT⟩ <;>
    simp only []
  rw [if_neg (by simp [h]), if_neg (by simp [h])]

/-- Closed instance of C5: with the cooldown still active (elapsed 60 < 120)
and a huge signal, the state is returned unchanged and no orders are placed. -/
theorem rv_cooldown_no_transition_witness :
    rvStep ⟨false, 1000, none, none⟩
        ⟨some ("HY", "HN"), some ("Y", "N"), 9/10, 1/10, 1060, true, true⟩
      = (⟨false, 1000, none, none⟩, []) :=
  rv_cooldown_no_transition _ _ (by norm_num [RV_COOLDOWN_SECONDS])

/-- C1, counterexample: the code has no zero-mid guard.  From the initial
(closed) state, with both markets resolved, a short-horizon mid of exactly 0
(the sentinel for unavailable data) and a long-horizon mid of 1/2, the RV
evaluation still computes signal -1/2, opens the position, records both legs,
updates the action timestamp, and places two orders — contradicting the claim
that a zero mid leaves the state unchanged with no orders. -/
theorem rv_zero_mid_not_guarded :
    rvStep rvInit ⟨some ("HY", "HN"), some ("Y", "N"), 0, 1/2, 1000, true, true⟩
      = (⟨true, 1000, some ⟨"YES", "Y"⟩, some ⟨"NO", "HN"⟩⟩,
         [⟨"Y", RV_SHARES, BUY_PRICE, "RV 15m YES"⟩,
          ⟨"HN", RV_SHARES, BUY_PRICE, "RV 1h NO"⟩]) := by
  norm_num [rvStep, rvSignal, rvInit, RV_OPEN_THR, RV_CLOSE_THR, RV_COOLDOWN_SECONDS,
    le_abs]
  exact ⟨rfl, rfl⟩

/-- C1, amended: if either market instance failed to resolve (the guard on
line 260), the RV evaluation makes no state change and places no orders; the
zero-mid part of the original claim is dropped, since the code computes the
signal from the mids as returned (see the counterexample). -/
theorem rv_skip_when_unresolved (st : RVState) (inp : RVInputs)
    (h : inp.resolved1h = none ∨ inp.tokens15m = none) :
    rvStep st inp = (st, []) := by
  unfold rvStep
  rcases hres : inp.resolved1h with _ | ⟨rvY, rvN⟩ <;>
    rcases htok : inp.tokens15m with _ | ⟨yT, nT⟩ <;>
    simp_all

/-- Closed instance of the amended C1: an unresolved 1-hour market skips the
evaluation even with a huge signal and no cooldown. -/
theorem rv_skip_when_unresolved_witness :
    rvStep rvInit ⟨none, some ("Y", "N"), 9/10, 1/10, 1000, true, true⟩
      = (rvInit, []) :=
  rv_skip_when_unresolved _ _ (Or.inl rfl)

/-- C7: `place_limit_buy_order` never propagates a service exception (it is a
total function of the service outcome, an exception being classified as
rejected), and its result is Accepted (`true`) exactly when the service
returned a response that reports success or carries an order identifier. -/
theorem place_limit_buy_classifies (o : ServiceOutcome) :
    place_limit_buy_order o = true
      ↔ ∃ r : OrderResp, o = ServiceOutcome.resp r
          ∧ (r.success = some true ∨ r.hasOrderID = true) := by
  cases o with
  | exn e => simp [place_limit_buy_order]
  | resp r => simp [place_limit_buy_order]

/-- C8: the mid price is the average of bid and ask when both are strictly
positive, otherwise the larger of the two when at least one is positive,
otherwise zero; and it is always nonnegative. -/
theorem get_mid_price_spec (bid ask : ℚ) :
    (0 < bid → 0 < ask → get_mid_price bid ask = (bid + ask) / 2)
    ∧ (¬ (0 < bid ∧ 0 < ask) → (0 < bid ∨ 0 < ask) →
        get_mid_price bid ask = max bid ask)
    ∧ (bid ≤ 0 → ask ≤ 0 → get_mid_price bid ask = 0)
    ∧ 0 ≤ get_mid_price bid ask := by
  unfold get_mid_price
  split_ifs with h
  · refine ⟨fun _ _ => rfl, fun hn _ => absurd h hn, fun hb _ => absurd h.1 (not_lt.mpr hb), ?_⟩
    have := h.1
    have := h.2
    positivity
  · refine ⟨fun h1 h2 => absurd ⟨h1, h2⟩ h, fun _ hpos => ?_, fun hb ha => ?_, le_max_right _ _⟩
    · rcases hpos with hb | ha
      · exact max_eq_left (le_trans hb.le (le_max_left _ _))
      · exact max_eq_left (le_trans ha.le (le_max_right _ _))
    · exact max_eq_right (max_le hb ha)

/-- Closed instance of C8: both quotes positive gives the average. -/
theorem get_mid_price_spec_witness :
    get_mid_price (1/2) (1/4) = (1/2 + 1/4) / 2 :=
  (get_mid_price_spec (1/2) (1/4)).1 (by norm_num) (by norm_num)

/-- C9: the 1-hour identifier is built from the lower-cased month name, the
unpadded day of month, the 12-hour clock hour and the am/pm indicator in the
fixed template, and the hour-12 conversion maps 24-hour values 0 and 12 both
to 12, with "am" for hour 0 and "pm" for hour 12. -/
theorem slug_hour12_spec :
    hour12_of 0 = 12 ∧ hour12_of 12 = 12 ∧ ampm_of 0 = "am" ∧ ampm_of 12 = "pm"
    ∧ (∀ h : Nat, 0 < h → h < 12 → hour12_of h = h ∧ ampm_of h = "am")
    ∧ (∀ h : Nat, 12 < h → h < 24 → hour12_of h = h - 12 ∧ ampm_of h = "pm")
    ∧ btc_1h_slug 6 3 0 = "bitcoin-up-or-down-june-3-12am-et"
    ∧ btc_1h_slug 6 3 12 = "bitcoin-up-or-down-june-3-12pm-et"
    ∧ btc_1h_slug 12 31 23 = "bitcoin-up-or-down-december-31-11pm-et" := by
  refine ⟨rfl, rfl, rfl, rfl, fun h h0 h12 => ⟨?_, ?_⟩, fun h h12 h24 => ⟨?_, ?_⟩,
    rfl, rfl, rfl⟩
  · unfold hour12_of
    split_ifs with hm <;> omega
  · unfold ampm_of
    rw [if_pos h12]
  · unfold hour12_of
    split_ifs with hm <;> omega
  · unfold ampm_of
    rw [if_neg (by omega)]

/-- Closed instance of C9: ordinary morning and afternoon hours. -/
theorem slug_hour12_spec_witness :
    (hour12_of 5 = 5 ∧ ampm_of 5 = "am") ∧ (hour12_of 15 = 15 - 12 ∧ ampm_of 15 = "pm") :=
  ⟨slug_hour12_spec.2.2.2.2.1 5 (by norm_num) (by norm_num),
   slug_hour12_spec.2.2.2.2.2.1 15 (by norm_num) (by norm_num)⟩

/-- C10: inside the trigger window, with no trade yet recorded for the
interval, the momentum block places a single-leg buy on whichever outcome has
the strictly higher bid — a zero bid (for instance from a failed fetch) is
compared like any other value — and suppresses the trade only when the two
bids are exactly equal. -/
theorem momentum_zero_bid_is_data (lti ci : Int) (minute : Nat)
    (yT nT : String) (yb nb : ℚ) (succ : Bool)
    (hwin : trigger_minute ≤ minute) (hnew : lti ≠ ci) :
    (nb < yb → (momentumStep lti ci minute yT nT yb nb succ).2
        = [⟨yT, SHARES_TO_BUY, BUY_PRICE, "YES"⟩])
    ∧ (yb < nb → (momentumStep lti ci minute yT nT yb nb succ).2
        = [⟨nT, SHARES_TO_BUY, BUY_PRICE, "NO"⟩])
    ∧ (yb = nb → momentumStep lti ci minute yT nT yb nb succ = (lti, [])) := by
  unfold momentumStep
  rw [if_pos ⟨hwin, hnew⟩]
  refine ⟨fun hy => ?_, fun hn => ?_, fun heq => ?_⟩
  · rw [if_pos hy]
  · rw [if_neg (not_lt.mpr hn.le), if_pos hn]
  · rw [if_neg (by simp [heq]), if_neg (by simp [heq])]

/-- Closed instance of C10: a zero Yes bid against a positive No bid places
the single No-side order rather than being treated as missing data. -/
theorem momentum_zero_bid_is_data_witness :
    (momentumStep (-1) 0 11 "Y" "N" 0 (3/5) true).2
      = [⟨"N", SHARES_TO_BUY, BUY_PRICE, "NO"⟩] :=
  (momentum_zero_bid_is_data (-1) 0 11 "Y" "N" 0 (3/5) true
    (by norm_num [trigger_minute, BUY_IN_LAST_X_MINUTES]) (by norm_num)).2.1 (by norm_num)

end Bot

namespace Bot

/-- Preservation lemma: one RV evaluation preserves the property that an
open state has both leg fields set. -/
theorem rvStep_legs_inv (s : RVState) (inp : RVInputs)
    (ih : s.rv_open = true → s.rv_15m_leg.isSome ∧ s.rv_1h_leg.isSome) :
    (rvStep s inp).1.rv_open = true →
      (rvStep s inp).1.rv_15m_leg.isSome ∧ (rvStep s inp).1.rv_1h_leg.isSome := by
  unfold rvStep
  rcases inp.resolved1h with _ | ⟨rvY, rvN⟩ <;>
    rcases inp.tokens15m with _ | ⟨yT, nT⟩ <;>
    simp only [] <;> try exact ih
  rcases h15 : s.rv_15m_leg with _ | l15 <;> rcases h1h : s.rv_1h_leg with _ | l1h <;>
    split_ifs with h1 h2 h3 <;> intro hopen <;> simp_all

/-- C2, counterexample: from the initial closed state, an open attempt whose
first leg is Rejected leaves `rv_open = false` but sets both leg fields to
the attempted legs (the code assigns them before placing the orders), so the
leg fields do not remain unset and the set-iff-open invariant fails in this
reachable state. -/
theorem rv_failed_open_sets_legs :
    rvStep rvInit ⟨some ("HY", "HN"), some ("Y", "N"), 7/10, 11/20, 1000, false, true⟩
      = (⟨false, 0, some ⟨"NO", "N"⟩, some ⟨"YES", "HY"⟩⟩,
         [⟨"N", RV_SHARES, BUY_PRICE, "RV 15m NO"⟩,
          ⟨"HY", RV_SHARES, BUY_PRICE, "RV 1h YES"⟩]) := by
  norm_num [rvStep, rvSignal, rvInit, RV_OPEN_THR, RV_CLOSE_THR, RV_COOLDOWN_SECONDS,
    le_abs]
  exact ⟨rfl, rfl⟩

/-- C2, amended: after any open attempt, `isOpen` is true iff both legs were
Accepted in that attempt, and the two leg fields are set (they are assigned
before placement, so on a Rejected leg they hold the attempted legs rather
than remaining unset); in every reachable state, `isOpen = true` implies both
leg fields are set — the converse direction of the original invariant fails,
as the counterexample shows. -/
theorem rv_open_atomicity_amended :
    (∀ (st : RVState) (inp : RVInputs) (p q : String × String),
        inp.resolved1h = some p → inp.tokens15m = some q →
        st.rv_open = false →
        ¬ (inp.now_ts - st.rv_last_action_ts < RV_COOLDOWN_SECONDS) →
        RV_OPEN_THR ≤ |rvSignal inp| →
        (rvStep st inp).1.rv_open = (inp.leg1_accept && inp.leg2_accept)
          ∧ (rvStep st inp).1.rv_15m_leg.isSome ∧ (rvStep st inp).1.rv_1h_leg.isSome)
    ∧ (∀ s : RVState, RVReachable s → s.rv_open = true →
        s.rv_15m_leg.isSome ∧ s.rv_1h_leg.isSome) := by
  constructor
  · rintro st inp ⟨rvY, rvN⟩ ⟨yT, nT⟩ hres htok hclosed hcool hsig
    unfold rvStep
    rw [hres, htok]
    simp only []
    rw [if_pos ⟨hclosed, hcool, hsig⟩]
    cases hacc : (inp.leg1_accept && inp.leg2_accept) <;> simp [hacc, hclosed]
  · intro s hs
    induction hs with
    | init => intro h; simp [rvInit] at h
    | step hs inp ih => exact rvStep_legs_inv _ inp ih

/-- Closed instance of the amended C2: a rejected second leg yields
`rv_open = true && false = false`, and the open state reached by a fully
accepted attempt has both leg fields set. -/
theorem rv_open_atomicity_amended_witness :
    ((rvStep rvInit ⟨some ("HY", "HN"), some ("Y", "N"), 7/10, 11/20, 1000, true, false⟩).1.rv_open
        = (true && false))
    ∧ ((rvStep rvInit ⟨some ("HY", "HN"), some ("Y", "N"), 7/10, 11/20, 1000, true, true⟩).1.rv_15m_leg.isSome
        ∧ (rvStep rvInit ⟨some ("HY", "HN"), some ("Y", "N"), 7/10, 11/20, 1000, true, true⟩).1.rv_1h_leg.isSome) :=
  ⟨(rv_open_atomicity_amended.1 rvInit _ ("HY", "HN") ("Y", "N") rfl rfl rfl
      (by norm_num [rvInit, RV_COOLDOWN_SECONDS])
      (by norm_num [rvSignal, RV_OPEN_THR, le_abs])).1,
   rv_open_atomicity_amended.2 _ (RVReachable.step RVReachable.init _)
      (by norm_num [rvStep, rvSignal, rvInit, RV_OPEN_THR, RV_COOLDOWN_SECONDS, le_abs])⟩

/-- C3, counterexample: a position opened while the 15-minute tokens were
("Y1", "N1") records the leg ("NO", "N1"), whose opposite token in the
recorded market instance is "Y1"; but if by the closing tick the 15-minute
market has rolled over to tokens ("Y2", "N2"), the closing buy targets "Y2",
not "Y1" — the close is built from the current tick's tokens, not from the
market instance recorded at open time. -/
theorem rv_close_uses_current_tick_tokens :
    (rvStep rvInit ⟨some ("HY1", "HN1"), some ("Y1", "N1"), 7/10, 11/20, 1000, true, true⟩).1.rv_15m_leg
        = some ⟨"NO", "N1"⟩
    ∧ (rvStep (rvStep rvInit ⟨some ("HY1", "HN1"), some ("Y1", "N1"), 7/10, 11/20, 1000, true, true⟩).1
          ⟨some ("HY1", "HN1"), some ("Y2", "N2"), 1/2, 1/2, 2000, true, true⟩).2.map Order.token
        = ["Y2", "HN1"]
    ∧ "Y2" ≠ "Y1" := by
  have h1 : rvStep rvInit ⟨some ("HY1", "HN1"), some ("Y1", "N1"), 7/10, 11/20, 1000, true, true⟩
      = (⟨true, 1000, some ⟨"NO", "N1"⟩, some ⟨"YES", "HY1"⟩⟩,
         [⟨"N1", RV_SHARES, BUY_PRICE, "RV 15m NO"⟩,
          ⟨"HY1", RV_SHARES, BUY_PRICE, "RV 1h YES"⟩]) := by
    norm_num [rvStep, rvSignal, rvInit, RV_OPEN_THR, RV_CLOSE_THR, RV_COOLDOWN_SECONDS,
      le_abs]
    exact ⟨rfl, rfl⟩
  refine ⟨by rw [h1], ?_, by decide⟩
  rw [h1]
  norm_num [rvStep, rvSignal, RV_OPEN_THR, RV_CLOSE_THR, RV_COOLDOWN_SECONDS, abs_le]
  decide

/-- C3, amended: on a close transition the two closing buys flip the recorded
side of each leg but draw their tokens from the markets resolved on the
closing tick (recorded side "NO" buys the current Yes token of that cadence,
otherwise the current No token) — these coincide with the opposite token of
the instance recorded at open time only while that instance is still the
active one; the state transitions to closed, clearing both legs, only if both
closing legs are Accepted, otherwise the state is left unchanged. -/
theorem rv_close_flip_amended (st : RVState) (inp : RVInputs)
    (rvY rvN yT nT : String) (l15 l1h : Leg)
    (hres : inp.resolved1h = some (rvY, rvN)) (htok : inp.tokens15m = some (yT, nT))
    (hopen : st.rv_open = true)
    (h15 : st.rv_15m_leg = some l15) (h1h : st.rv_1h_leg = some l1h)
    (hcool : ¬ (inp.now_ts - st.rv_last_action_ts < RV_COOLDOWN_SECONDS))
    (hsig : |rvSignal inp| ≤ RV_CLOSE_THR) :
    (rvStep st inp).2
        = [⟨if l15.side = "NO" then yT else nT, RV_SHARES, BUY_PRICE, "RV 15m CLOSE"⟩,
           ⟨if l1h.side = "NO" then rvY else rvN, RV_SHARES, BUY_PRICE, "RV 1h CLOSE"⟩]
      ∧ ((inp.leg1_accept && inp.leg2_accept) = true →
          (rvStep st inp).1 = ⟨false, inp.now_ts, none, none⟩)
      ∧ ((inp.leg1_accept && inp.leg2_accept) = false → (rvStep st inp).1 = st) := by
  unfold rvStep
  rw [hres, htok]
  simp only []
  rw [if_neg (by simp [hopen]), if_pos ⟨hopen, hcool, hsig⟩]
  simp only [h15, h1h]
  cases hacc : (inp.leg1_accept && inp.leg2_accept) <;> simp [hacc]

/-- Closed instance of the amended C3: an open position with recorded legs
("NO", "N1") and ("YES", "HY1") closes against the current tokens, buying the
current 15-minute Yes token and the current 1-hour No token, and both legs
accepting clears the state. -/
theorem rv_close_flip_amended_witness :
    (rvStep ⟨true, 1000, some ⟨"NO", "N1"⟩, some ⟨"YES", "HY1"⟩⟩
          ⟨some ("HY1", "HN1"), some ("Y2", "N2"), 1/2, 1/2, 2000, true, true⟩).2
        = [⟨if ("NO" : String) = "NO" then "Y2" else "N2", RV_SHARES, BUY_PRICE, "RV 15m CLOSE"⟩,
           ⟨if ("YES" : String) = "NO" then "HY1" else "HN1", RV_SHARES, BUY_PRICE, "RV 1h CLOSE"⟩] :=
  (rv_close_flip_amended ⟨true, 1000, some ⟨"NO", "N1"⟩, some ⟨"YES", "HY1"⟩⟩
    ⟨some ("HY1", "HN1"), some ("Y2", "N2"), 1/2, 1/2, 2000, true, true⟩
    "HY1" "HN1" "Y2" "N2" ⟨"NO", "N1"⟩ ⟨"YES", "HY1"⟩ rfl rfl rfl rfl rfl
    (by norm_num [RV_COOLDOWN_SECONDS])
    (by norm_num [rvSignal, RV_CLOSE_THR, abs_le])).1

/-- Holding lemma: an open position with the signal's absolute value above
the close threshold is returned unchanged with no orders. -/
theorem rvStep_holds_open (st : RVState) (inp : RVInputs) (hopen : st.rv_open = true)
    (hsig : ¬ |rvSignal inp| ≤ RV_CLOSE_THR) : rvStep st inp = (st, []) := by
  unfold rvStep
  rcases inp.resolved1h with _ | ⟨rvY, rvN⟩ <;>
    rcases inp.tokens15m with _ | ⟨yT, nT⟩ <;> simp only []
  rw [if_neg (by simp [hopen]), if_neg (fun h => absurd h.2.2 hsig)]

/-- C4: the configured thresholds satisfy `closeThreshold < openThreshold`;
once Open, the engine transitions to Closed on a tick only if
`|signal| ≤ closeThreshold` on that tick; and in the dead zone
(`closeThreshold < |signal| < openThreshold`) an Open state is returned
entirely unchanged with no orders. -/
theorem rv_hysteresis :
    RV_CLOSE_THR < RV_OPEN_THR
    ∧ (∀ (st : RVState) (inp : RVInputs), st.rv_open = true →
        (rvStep st inp).1.rv_open = false → |rvSignal inp| ≤ RV_CLOSE_THR)
    ∧ (∀ (st : RVState) (inp : RVInputs), st.rv_open = true →
        RV_CLOSE_THR < |rvSignal inp| → |rvSignal inp| < RV_OPEN_THR →
        rvStep st inp = (st, [])) := by
  refine ⟨by norm_num [RV_CLOSE_THR, RV_OPEN_THR], ?_, ?_⟩
  · intro st inp hopen hclosed
    by_cases hsig : |rvSignal inp| ≤ RV_CLOSE_THR
    · exact hsig
    · exfalso
      rw [rvStep_holds_open st inp hopen hsig] at hclosed
      have h2 : st.rv_open = false := hclosed
      rw [hopen] at h2
      exact Bool.noConfusion h2
  · intro st inp hopen hlow hhigh
    exact rvStep_holds_open st inp hopen (not_le.mpr hlow)

/-- Closed instance of C4: with the signal at 1/20 — inside the dead zone
between 3/100 and 8/100 — an open position is held unchanged and no orders
are placed. -/
theorem rv_hysteresis_witness :
    rvStep ⟨true, 0, some ⟨"NO", "N"⟩, some ⟨"YES", "HY"⟩⟩
        ⟨some ("HY", "HN"), some ("Y", "N"), 3/5, 11/20, 1000, true, true⟩
      = (⟨true, 0, some ⟨"NO", "N"⟩, some ⟨"YES", "HY"⟩⟩, []) :=
  rv_hysteresis.2.2 _ _ rfl
    (by norm_num [rvSignal, RV_CLOSE_THR, lt_abs])
    (by norm_num [rvSignal, RV_OPEN_THR, abs_lt])



/-- C6: on an open transition, a positive signal takes the short-horizon "No"
token and the long-horizon "Yes" token, and a negative signal takes the
short-horizon "Yes" token and the long-horizon "No" token, both as the
recorded legs and as the two orders placed, in that order. -/
theorem rv_open_leg_choice (st : RVState) (inp : RVInputs)
    (rvY rvN yT nT : String)
    (hres : inp.resolved1h = some (rvY, rvN)) (htok : inp.tokens15m = some (yT, nT))
    (hclosed : st.rv_open = false)
    (hcool : ¬ (inp.now_ts - st.rv_last_action_ts < RV_COOLDOWN_SECONDS))
    (hsig : RV_OPEN_THR ≤ |rvSignal inp|) :
    (0 < rvSignal inp →
        (rvStep st inp).1.rv_15m_leg = some ⟨"NO", nT⟩
          ∧ (rvStep st inp).1.rv_1h_leg = some ⟨"YES", rvY⟩
          ∧ (rvStep st inp).2.map Order.token = [nT, rvY])
    ∧ (rvSignal inp < 0 →
        (rvStep st inp).1.rv_15m_leg = some ⟨"YES", yT⟩
          ∧ (rvStep st inp).1.rv_1h_leg = some ⟨"NO", rvN⟩
          ∧ (rvStep st inp).2.map Order.token = [yT, rvN]) := by
  unfold rvStep
  rw [hres, htok]
  simp only []
  rw [if_pos ⟨hclosed, hcool, hsig⟩]
  constructor
  · intro hpos
    simp only [if_pos hpos]
    cases hacc : (inp.leg1_accept && inp.leg2_accept) <;> simp [hacc]
  · intro hneg
    simp only [if_neg (not_lt.mpr hneg.le)]
    cases hacc : (inp.leg1_accept && inp.leg2_accept) <;> simp [hacc]

/-- Closed instance of C6: signal 3/20 > 0 records the short-horizon No leg
and the long-horizon Yes leg and places the orders on those tokens. -/
theorem rv_open_leg_choice_witness :
    (rvStep rvInit ⟨some ("HY", "HN"), some ("Y", "N"), 7/10, 11/20, 1000, true, true⟩).1.rv_15m_leg
        = some ⟨"NO", "N"⟩
      ∧ (rvStep rvInit ⟨some ("HY", "HN"), some ("Y", "N"), 7/10, 11/20, 1000, true, true⟩).1.rv_1h_leg
        = some ⟨"YES", "HY"⟩
      ∧ (rvStep rvInit ⟨some ("HY", "HN"), some ("Y", "N"), 7/10, 11/20, 1000, true, true⟩).2.map Order.token
        = ["N", "HY"] :=
  (rv_open_leg_choice rvInit _ "HY" "HN" "Y" "N" rfl rfl rfl
    (by norm_num [rvInit, RV_COOLDOWN_SECONDS])
    (by norm_num [rvSignal, RV_OPEN_THR, le_abs])).1
    (by norm_num [rvSignal])

end Bot
